import Mathlib

/-!
Shallow embedding of the pattern-analysis engine of the glucogenie_app
repository (`src/backend/app/core/pattern_analyzer.py`, schemas from
`src/backend/app/schemas/pattern_analysis.py` and
`src/backend/app/schemas/enhanced_patient_context.py`), together with
theorems settling the frozen claims about it.

Modelling conventions, used consistently below:

* Event timestamps are ISO-8601 strings in the source, parsed with
  `datetime.fromisoformat` and converted to the Singapore timezone.  The
  parse-then-convert pipeline is an order- and hour-preserving map, so an
  instant is modelled as an `Int`: minutes since a fixed Singapore-local
  midnight epoch.  `dt.hour` becomes `hourOfMin`, `dt.hour * 60 + dt.minute`
  becomes `minOfDay`, `dt.date()` becomes `dateOfMin`, and a difference
  `(a - b).total_seconds() / 3600` becomes `((a - b : Int) : ℚ) / 60`.
  All timestamps are taken to be well-formed, so the per-record
  `except Exception: continue` branches of the source are dead here.
* Python floats are modelled as exact rationals `ℚ`; the two scores that
  the source derives from a square root (circadian `stability` and the
  meal/medication timing consistency) are modelled in `ℝ` via `Real.sqrt`.
* `get_singapore_now()` (wall clock, `timezone_utils.py`) is modelled as an
  explicit parameter `now : Int`; the two calls inside
  `_analyze_hypoglycemia_risk` are modelled as returning the same instant.
* Python dicts are insertion-ordered association lists (`dictInsert`,
  `appendAt`, `bump`); `sorted` / `list.sort` / `Counter.most_common` are
  a stable insertion sort (`sortLe`); iteration over a Python `set` of
  activity types is modelled as first-occurrence order (`dedupF`), which
  fixes only the order of the returned list, not any per-type content.
-/

namespace GlucoGenie

/-- Stable insert: `a` is placed after every `b` with `le b a`, mirroring the
stability of Python sorts (equal elements keep their original order). -/
def insertLe (le : α → α → Bool) (a : α) : List α → List α
  | [] => [a]
  | b :: bs => if le b a then b :: insertLe le a bs else a :: b :: bs

/-- Stable insertion sort, processing the list left to right; models Python
`sorted(...)` / `list.sort(...)` with comparator `le`. -/
def sortLe (le : α → α → Bool) (l : List α) : List α :=
  l.foldl (fun acc a => insertLe le a acc) []

/-- Python dict assignment `d[k] = v`: update in place if the key exists
(keeping its position), else append; insertion order is preserved. -/
def dictInsert [BEq κ] (k : κ) (v : α) : List (κ × α) → List (κ × α)
  | [] => [(k, v)]
  | (k2, v2) :: rest =>
      if k == k2 then (k2, v) :: rest else (k2, v2) :: dictInsert k v rest

/-- Python `defaultdict(list)` append `d[k].append(v)`. -/
def appendAt [BEq κ] (k : κ) (v : α) : List (κ × List α) → List (κ × List α)
  | [] => [(k, [v])]
  | (k2, vs) :: rest =>
      if k == k2 then (k2, vs ++ [v]) :: rest else (k2, vs) :: appendAt k v rest

/-- Python `Counter` increment. -/
def bump [BEq κ] (k : κ) : List (κ × Nat) → List (κ × Nat)
  | [] => [(k, 1)]
  | (k2, n) :: rest =>
      if k == k2 then (k2, n + 1) :: rest else (k2, n) :: bump k rest

/-- First-occurrence deduplication; models iterating over a Python `set`
built from a list (order fixed to first occurrence, see header). -/
def dedupF [BEq α] (l : List α) : List α :=
  l.foldl (fun acc x => if acc.contains x then acc else acc ++ [x]) []

/-- Substring test on character lists, for Python `pat in s`. -/
def charsContain (pat : List Char) : List Char → Bool
  | [] => pat.isEmpty
  | c :: cs => pat.isPrefixOf (c :: cs) || charsContain pat cs

/-- Python `pat in s` for strings. -/
def strContains (pat s : String) : Bool :=
  charsContain pat.toList s.toList

/-- Hour of day (0-23) of a Singapore-local instant given in minutes. -/
def hourOfMin (t : Int) : Int := (Int.emod t 1440) / 60

/-- Minutes since local midnight (`dt.hour * 60 + dt.minute`). -/
def minOfDay (t : Int) : Int := Int.emod t 1440

/-- Local calendar day index (`dt.date()`). -/
def dateOfMin (t : Int) : Int := Int.fdiv t 1440

/-- Python builtin `min` of two values (`min(1.0, x)` in the source):
returns the first argument exactly when `a ≤ b`, as Python does. -/
def min2 (a b : ℚ) : ℚ := if a ≤ b then a else b

/-- Python builtin `max` of two values: returns the first argument exactly
when `b ≤ a`, as Python does; folded over a list it models `max(xs)`. -/
def max2 (a b : ℚ) : ℚ := if b ≤ a then a else b

/-- Arithmetic mean of a list of rationals; the source only divides when the
list is nonempty. -/
def meanQ (l : List ℚ) : ℚ := l.sum / (l.length : ℚ)

/-- Maximum of a list of rationals (Python `max` on a nonempty list; the
`[]` case is never reached behind the source's nonemptiness guards). -/
def maxQ : List ℚ → ℚ
  | [] => 0
  | a :: as => as.foldl max2 a

/-- Population variance, as computed literally by the source:
`sum((x - mean) ** 2 for x in xs) / len(xs)`. -/
def popVar (l : List ℚ) : ℚ :=
  ((l.map (fun x => (x - meanQ l) ^ 2)).sum) / (l.length : ℚ)

/-- Python `Counter(l).most_common(k)` keys: stable sort of the counter
entries by count descending (ties keep first-insertion order), first `k`. -/
def mostCommonK (k : Nat) (l : List Int) : List Int :=
  let counter := l.foldl (fun acc h => bump h acc) []
  ((sortLe (fun x y => decide (y.2 ≤ x.2)) counter).take k).map (·.1)

/-- Python `Counter(l).most_common(1)[0][0]` guarded by nonemptiness. -/
def mostCommon1 (l : List Int) : Option Int :=
  (mostCommonK 1 l).head?

/-! Data model, from `enhanced_patient_context.py` and `patient_context.py`.
Fields not read by `pattern_analyzer.py` (demographics, pre-computed summary
statistics, free-text notes) are omitted; optional text fields that the
analyzers never read are given defaults so they can be elided in examples. -/

/-- One glucose log row (`RecentGlucoseReading`). -/
structure RecentGlucoseReading where
  reading : ℚ
  timestamp : Int
  timing : Option String := none
  notes : Option String := none
deriving DecidableEq, Repr

/-- One meal log row (`RecentMealLog`). -/
structure RecentMealLog where
  meal : String
  timestamp : Int
  description : Option String := none
deriving DecidableEq, Repr

/-- One medication log row (`RecentMedicationLog`). -/
structure RecentMedicationLog where
  medication_name : String
  timestamp : Int
  quantity : Option String := none
deriving DecidableEq, Repr

/-- One activity log row (`RecentActivityLog`). -/
structure RecentActivityLog where
  activity_type : String
  timestamp : Int
  duration_minutes : Int := 0
  intensity : String := ""
deriving DecidableEq, Repr

/-- One weight log row (`RecentWeightLog`). -/
structure RecentWeightLog where
  weight : ℚ
  unit : String
  timestamp : Int
deriving DecidableEq, Repr

/-- The two `PatientContext` fields read by the engine (`conditions`,
`medications`); `medications = None` is modelled as the empty list, which
has the same truthiness in every guard of the source. -/
structure PatientContext where
  conditions : List String := []
  medications : List String := []
deriving DecidableEq, Repr

/-- The immutable per-request snapshot (`EnhancedPatientContext`); the five
log lists are ordered most-recent-first, as fetched. -/
structure EnhancedPatientContext where
  patient : PatientContext := {}
  recent_glucose_readings : List RecentGlucoseReading := []
  recent_meal_logs : List RecentMealLog := []
  recent_medication_logs : List RecentMedicationLog := []
  recent_activity_logs : List RecentActivityLog := []
  recent_weight_logs : List RecentWeightLog := []
  days_of_history : Int := 7
deriving DecidableEq, Repr

/-! Output schema, from `pattern_analysis.py`. -/

/-- `CircadianPattern`. -/
structure CircadianPattern where
  peak_hours : List Int
  low_hours : List Int
  peak_avg_glucose : Option ℚ
  low_avg_glucose : Option ℚ
  pattern_stability : ℝ

/-- `MealGlucoseCorrelation`. -/
structure MealGlucoseCorrelation where
  meal_name : String
  avg_glucose_spike : ℚ
  spike_duration_hours : ℚ
  occurrences : Nat
  is_high_spike : Bool
deriving DecidableEq, Repr

/-- `GlucoseMealCorrelationMatrix`; the zero-argument constructor call of
the source is the all-default value. -/
structure GlucoseMealCorrelationMatrix where
  best_meals : List String := []
  worst_meals : List String := []
  correlations : List MealGlucoseCorrelation := []
  avg_spike_all_meals : Option ℚ := none
deriving DecidableEq, Repr

/-- `MedicationTimingEffectiveness`. -/
structure MedicationTimingEffectiveness where
  medication_name : String
  optimal_timing_hour : Option Int
  missed_dose_impact : Option ℚ
  adherence_rate : ℚ
  effectiveness_score : ℚ
deriving DecidableEq, Repr

/-- `GlucoseSpikePattern`; `spike_triggers` is always the empty dict. -/
structure GlucoseSpikePattern where
  avg_spike_magnitude : ℚ
  spike_frequency : ℚ
  common_spike_times : List Int
  spike_triggers : List (String × ℚ) := []
deriving DecidableEq, Repr

/-- `ActivityGlucoseCorrelation`. -/
structure ActivityGlucoseCorrelation where
  activity_type : String
  avg_glucose_before : Option ℚ
  avg_glucose_after : Option ℚ
  glucose_change : ℚ
  optimal_timing_hour : Option Int
deriving DecidableEq, Repr

/-- `WeightGlucoseCorrelation`. -/
structure WeightGlucoseCorrelation where
  weight_change_kg : ℚ
  glucose_change_mg_dl : ℚ
  correlation_strength : ℚ
  days_to_see_effect : Int
deriving DecidableEq, Repr

/-- `HypoglycemiaRiskFactors`. -/
structure HypoglycemiaRiskFactors where
  risk_score : ℚ
  contributing_factors : List String
  last_meal_hours_ago : Option ℚ
  recent_activity : Bool
  medication_timing_risk : Bool
  glucose_trend : String
deriving DecidableEq, Repr

/-- `LifestyleConsistency`; the three sqrt-derived scores live in `ℝ`. -/
structure LifestyleConsistency where
  overall_score : ℝ
  meal_timing_consistency : ℝ
  medication_timing_consistency : ℝ
  activity_consistency : ℝ
  areas_needing_improvement : List String

/-- `PersonalizedTargets`. -/
structure PersonalizedTargets where
  suggested_glucose_range_min : ℚ
  suggested_glucose_range_max : ℚ
  rationale : String
  best_meal_times : List String
  best_activity_times : List String
  medication_optimization : List (String × String)
deriving DecidableEq, Repr

/-- `PatternAnalysisResult`, the aggregate returned by the orchestrator. -/
structure PatternAnalysisResult where
  circadian_pattern : Option CircadianPattern
  meal_glucose_correlations : GlucoseMealCorrelationMatrix
  medication_effectiveness : List MedicationTimingEffectiveness
  spike_patterns : Option GlucoseSpikePattern
  activity_correlations : List ActivityGlucoseCorrelation
  weight_correlations : Option WeightGlucoseCorrelation
  hypoglycemia_risk : Option HypoglycemiaRiskFactors
  lifestyle_consistency : Option LifestyleConsistency
  personalized_targets : Option PersonalizedTargets

/-- Fixture constructor: a glucose reading with empty optional fields. -/
def gr (v : ℚ) (t : Int) : RecentGlucoseReading := { reading := v, timestamp := t }

/-- Fixture constructor: a meal log. -/
def ml (n : String) (t : Int) : RecentMealLog := { meal := n, timestamp := t }

/-- Fixture constructor: a medication log. -/
def mdl (n : String) (t : Int) : RecentMedicationLog :=
  { medication_name := n, timestamp := t }

/-- Fixture constructor: an activity log. -/
def al (ty : String) (t : Int) : RecentActivityLog :=
  { activity_type := ty, timestamp := t }

/-- Fixture constructor: a weight log. -/
def wl (w : ℚ) (u : String) (t : Int) : RecentWeightLog :=
  { weight := w, unit := u, timestamp := t }

/-! The analyzers of `pattern_analyzer.py`, one definition per source
function, with shared sub-computations factored into named definitions
that the analyzers use verbatim. -/

/-- The time-indexed glucose dict `glucose_by_time` (lines 148-157 and
354-363): keyed by converted timestamp, later duplicate timestamps
overwrite the stored value in place. -/
def glucoseByTime (rs : List RecentGlucoseReading) : List (Int × ℚ) :=
  rs.foldl (fun acc r => dictInsert r.timestamp r.reading acc) []

/-- Hour-of-day grouping `hourly_readings` of `_analyze_circadian_patterns`
(lines 90-101), a `defaultdict(list)` keyed by Singapore-local hour. -/
def hourlyGroup (rs : List RecentGlucoseReading) : List (Int × List ℚ) :=
  rs.foldl (fun acc r => appendAt (hourOfMin r.timestamp) r.reading acc) []

/-- Per-hour mean glucose values `list(hourly_avg.values())` (lines 107-110,
121), in bucket first-occurrence order. -/
def bucketMeans (rs : List RecentGlucoseReading) : List ℚ :=
  (hourlyGroup rs).map (fun p => meanQ p.2)

/-- Dict lookup `hourly_avg[h]` (lines 117-118); keys are distinct by
construction, the default is dead code. -/
def lookupQ (l : List (Int × ℚ)) (k : Int) : ℚ :=
  match l.find? (fun p => p.1 == k) with
  | some p => p.2
  | none => 0

/-- `_analyze_circadian_patterns` (lines 82-137); noncomputable only
because the exact square root of the stability score lives in `ℝ`. -/
noncomputable def analyze_circadian_patterns (ctx : EnhancedPatientContext) :
    Option CircadianPattern :=
  if ctx.recent_glucose_readings.isEmpty then none else
  let hg := hourlyGroup ctx.recent_glucose_readings
  if hg.isEmpty then none else
  let hourly_avg := hg.map (fun p => (p.1, meanQ p.2))
  let sorted_hours := sortLe (fun x y => decide (y.2 ≤ x.2)) hourly_avg
  let peak_hours := (sorted_hours.take 3).map (·.1)
  let low_hours := (sorted_hours.drop (sorted_hours.length - 3)).map (·.1)
  let peak_avg :=
    if peak_hours.isEmpty then none else some (lookupQ hourly_avg (peak_hours.headD 0))
  let low_avg :=
    if low_hours.isEmpty then none else some (lookupQ hourly_avg (low_hours.headD 0))
  let all_avgs := bucketMeans ctx.recent_glucose_readings
  let stability : ℝ :=
    if 1 < all_avgs.length then
      max 0 (1 - Real.sqrt (popVar all_avgs : ℚ) / 50)
    else 1 / 2
  some { peak_hours := peak_hours, low_hours := low_hours,
         peak_avg_glucose := peak_avg, low_avg_glucose := low_avg,
         pattern_stability := stability }

/-- The baseline scan of `_analyze_meal_glucose_correlations` (lines
169-175): walk the time-sorted glucose items, remembering the value while
`dt <= meal_dt`, and `break` (return the accumulator) at the first later
item. -/
def baselineLoop (t : Int) : List (Int × ℚ) → Option ℚ → Option ℚ
  | [], acc => acc
  | (d, g) :: rest, acc => if d ≤ t then baselineLoop t rest (some g) else acc

/-- Baseline for a trigger at `t`: value of the closest glucose item at or
before `t` in `sorted(glucose_by_time.items())`, else `None`. -/
def mealBaseline (gbt : List (Int × ℚ)) (t : Int) : Option ℚ :=
  baselineLoop t (sortLe (fun x y => decide (x.1 ≤ y.1)) gbt) none

/-- The post-meal response window `post_meal_readings` (lines 181-185):
values of glucose items strictly after the meal and at most 3 hours after,
in dict insertion order. -/
def mealResponses (gbt : List (Int × ℚ)) (t : Int) : List ℚ :=
  (gbt.filter (fun p => decide (t < p.1) && decide (p.1 ≤ t + 180))).map (·.2)

/-- Per-meal spike `max(post_meal_readings) - baseline` (lines 169-189);
`none` when the meal has no baseline or no response readings. -/
def mealSpikeAt (gbt : List (Int × ℚ)) (t : Int) : Option ℚ :=
  match mealBaseline gbt t with
  | none => none
  | some baseline =>
      let posts := mealResponses gbt t
      if posts.isEmpty then none else some (maxQ posts - baseline)

/-- `_analyze_meal_glucose_correlations` (lines 140-219). -/
def analyze_meal_glucose_correlations (ctx : EnhancedPatientContext) :
    GlucoseMealCorrelationMatrix :=
  if ctx.recent_meal_logs.isEmpty || ctx.recent_glucose_readings.isEmpty then {} else
  let gbt := glucoseByTime ctx.recent_glucose_readings
  let meal_correlations : List (String × List ℚ) :=
    ctx.recent_meal_logs.foldl
      (fun acc m =>
        match mealSpikeAt gbt m.timestamp with
        | none => acc
        | some spike => appendAt m.meal spike acc) []
  let correlations : List MealGlucoseCorrelation :=
    meal_correlations.filterMap (fun p =>
      if p.2.isEmpty then none else
      let avg_spike := meanQ p.2
      some { meal_name := p.1, avg_glucose_spike := avg_spike,
             spike_duration_hours := 2, occurrences := p.2.length,
             is_high_spike := decide (40 < avg_spike) })
  let sorted := sortLe (fun x y => decide (x.avg_glucose_spike ≤ y.avg_glucose_spike))
    correlations
  let best_meals := ((sorted.take 5).filter (fun c => !c.is_high_spike)).map (·.meal_name)
  let worst_meals :=
    ((sorted.drop (sorted.length - 5)).filter (·.is_high_spike)).map (·.meal_name)
  let avg_spike_all :=
    if sorted.isEmpty then none
    else some ((sorted.map (·.avg_glucose_spike)).sum / (sorted.length : ℚ))
  { best_meals := best_meals, worst_meals := worst_meals,
    correlations := sorted, avg_spike_all_meals := avg_spike_all }

/-- Logs matching one active medication, case-insensitively (lines
233-236). -/
def medLogsFor (ctx : EnhancedPatientContext) (med_name : String) :
    List RecentMedicationLog :=
  ctx.recent_medication_logs.filter
    (fun l => l.medication_name.toLower == med_name.toLower)

/-- Per-medication body of `_analyze_medication_timing` (lines 231-281);
`none` models the `continue` when the medication has no logs. -/
def medicationEntryFor (ctx : EnhancedPatientContext) (med_name : String) :
    Option MedicationTimingEffectiveness :=
  let med_logs := medLogsFor ctx med_name
  if med_logs.isEmpty then none else
  let adherence_rate : ℚ :=
    if 0 < ctx.days_of_history then
      ((med_logs.length : ℚ) / (ctx.days_of_history : ℚ)) * 100
    else 0
  let timing_hours := med_logs.map (fun l => hourOfMin l.timestamp)
  let optimal_timing := if timing_hours.isEmpty then none else mostCommon1 timing_hours
  some { medication_name := med_name, optimal_timing_hour := optimal_timing,
         missed_dose_impact := none, adherence_rate := adherence_rate,
         effectiveness_score := min2 1 (adherence_rate / 100) }

/-- `_analyze_medication_timing` (lines 222-283). -/
def analyze_medication_timing (ctx : EnhancedPatientContext) :
    List MedicationTimingEffectiveness :=
  if ctx.recent_medication_logs.isEmpty || ctx.patient.medications.isEmpty then []
  else ctx.patient.medications.filterMap (medicationEntryFor ctx)

/-- `_analyze_glucose_spikes` (lines 286-340); consecutive sorted readings
0.5-4 hours apart rising by more than 20 mg/dL count as spikes. -/
def analyze_glucose_spikes (ctx : EnhancedPatientContext) :
    Option GlucoseSpikePattern :=
  if ctx.recent_glucose_readings.isEmpty || ctx.recent_glucose_readings.length < 2
  then none else
  let sorted_readings :=
    sortLe (fun a b => decide (a.timestamp ≤ b.timestamp)) ctx.recent_glucose_readings
  let hits : List (ℚ × Int) :=
    (sorted_readings.zip sorted_readings.tail).filterMap (fun pc =>
      let time_diff : ℚ := ((pc.2.timestamp - pc.1.timestamp : Int) : ℚ) / 60
      if 1 / 2 ≤ time_diff ∧ time_diff ≤ 4 then
        let spike := pc.2.reading - pc.1.reading
        if 20 < spike then some (spike, hourOfMin pc.2.timestamp) else none
      else none)
  let spikes := hits.map (·.1)
  if spikes.isEmpty then none else
  let spike_times := hits.map (·.2)
  let avg_spike := meanQ spikes
  let spike_freq : ℚ :=
    if 0 < ctx.days_of_history then (spikes.length : ℚ) / (ctx.days_of_history : ℚ)
    else 0
  some { avg_spike_magnitude := avg_spike, spike_frequency := spike_freq,
         common_spike_times := mostCommonK 3 spike_times }

/-- Glucose items in the hour before an activity start, `before_glucose`
(lines 383-387): `before_window <= dt < activity_dt`, dict order. -/
def beforePairs (gbt : List (Int × ℚ)) (t : Int) : List (Int × ℚ) :=
  gbt.filter (fun p => decide (t - 60 ≤ p.1) && decide (p.1 < t))

/-- Glucose items 1-3 hours after an activity start, `after_glucose`
(lines 392-397): `start+1h <= dt <= start+3h`, dict order. -/
def afterPairs (gbt : List (Int × ℚ)) (t : Int) : List (Int × ℚ) :=
  gbt.filter (fun p => decide (t + 60 ≤ p.1) && decide (p.1 ≤ t + 180))

/-- `before_readings` (lines 388-389): per activity instance the LAST
listed in-window value (`before_glucose[-1]`), skipped when empty. -/
def beforePicks (gbt : List (Int × ℚ)) (alogs : List RecentActivityLog) : List ℚ :=
  alogs.filterMap (fun a => ((beforePairs gbt a.timestamp).getLast?).map (·.2))

/-- `after_readings` (lines 398-399): per activity instance the FIRST
listed in-window value (`after_glucose[0]`), skipped when empty. -/
def afterPicks (gbt : List (Int × ℚ)) (alogs : List RecentActivityLog) : List ℚ :=
  alogs.filterMap (fun a => ((afterPairs gbt a.timestamp).head?).map (·.2))

/-- Per-activity-type body of `_analyze_activity_glucose_correlations`
(lines 367-420); `none` when either pooled list is empty. -/
def activityCorrelationFor (gbt : List (Int × ℚ))
    (logs : List RecentActivityLog) (ty : String) :
    Option ActivityGlucoseCorrelation :=
  let alogs := logs.filter (fun a => a.activity_type == ty)
  let before_readings := beforePicks gbt alogs
  let after_readings := afterPicks gbt alogs
  let activity_hours := alogs.map (fun a => hourOfMin a.timestamp)
  if before_readings.isEmpty || after_readings.isEmpty then none else
  let avg_before := meanQ before_readings
  let avg_after := meanQ after_readings
  some { activity_type := ty, avg_glucose_before := some avg_before,
         avg_glucose_after := some avg_after,
         glucose_change := avg_after - avg_before,
         optimal_timing_hour :=
           if activity_hours.isEmpty then none else mostCommon1 activity_hours }

/-- `_analyze_activity_glucose_correlations` (lines 343-422). -/
def analyze_activity_glucose_correlations (ctx : EnhancedPatientContext) :
    List ActivityGlucoseCorrelation :=
  if ctx.recent_activity_logs.isEmpty || ctx.recent_glucose_readings.isEmpty then []
  else
  let gbt := glucoseByTime ctx.recent_glucose_readings
  (dedupF (ctx.recent_activity_logs.map (·.activity_type))).filterMap
    (activityCorrelationFor gbt ctx.recent_activity_logs)

/-- `_analyze_weight_glucose_correlation` (lines 425-468). -/
def analyze_weight_glucose_correlation (ctx : EnhancedPatientContext) :
    Option WeightGlucoseCorrelation :=
  if ctx.recent_weight_logs.isEmpty || ctx.recent_weight_logs.length < 2 then none else
  if ctx.recent_glucose_readings.isEmpty || ctx.recent_glucose_readings.length < 2
  then none else
  let weights_kg : List (Int × ℚ) :=
    ctx.recent_weight_logs.map (fun wl =>
      (wl.timestamp,
       if wl.unit.toLower == "lbs" then wl.weight * (453592 / 1000000) else wl.weight))
  let sorted_w := sortLe (fun x y => decide (x.1 ≤ y.1)) weights_kg
  if sorted_w.length < 2 then none else
  let weight_change := (sorted_w.getLastD (0, 0)).2 - (sorted_w.headD (0, 0)).2
  let sorted_glucose :=
    sortLe (fun a b => decide (a.timestamp ≤ b.timestamp)) ctx.recent_glucose_readings
  if sorted_glucose.length < 2 then none else
  let early_glucose := sorted_glucose.take (sorted_glucose.length / 2)
  let late_glucose := sorted_glucose.drop (sorted_glucose.length / 2)
  let early_avg := meanQ (early_glucose.map (·.reading))
  let late_avg := meanQ (late_glucose.map (·.reading))
  let correlation : ℚ := if weight_change < 0 then -(3 / 10) else 2 / 10
  some { weight_change_kg := weight_change,
         glucose_change_mg_dl := late_avg - early_avg,
         correlation_strength := correlation,
         days_to_see_effect := ctx.days_of_history }

/-! `_analyze_hypoglycemia_risk` (lines 471-576).  The source accumulates
`risk_score` with `+=` and `factors` with `append` through five sequential
rule blocks; here each rule condition is a named definition and the
accumulation is written as the equivalent sum / list concatenation, in the
same order (recent low, trend, meal timing, activity, insulin-vs-meal). -/

/-- Recent-low rule condition (lines 481-485): any of the first 5 readings
below 80 mg/dL.  Note the source threshold is 80, not 70. -/
def recentLowFires (ctx : EnhancedPatientContext) : Bool :=
  !((ctx.recent_glucose_readings.take 5).filter (fun r => decide (r.reading < 80))).isEmpty

/-- Trend rule (lines 487-500): returns (rule fires, trend label).  With
3-5 readings `earlier_avg` is defined to be `recent_avg`. -/
def trendCalc (ctx : EnhancedPatientContext) : Bool × String :=
  if 3 ≤ ctx.recent_glucose_readings.length then
    let recent_avg : ℚ :=
      (((ctx.recent_glucose_readings.take 3).map (·.reading)).sum) / 3
    let earlier_avg : ℚ :=
      if 6 ≤ ctx.recent_glucose_readings.length then
        ((((ctx.recent_glucose_readings.drop 3).take 3).map (·.reading)).sum) / 3
      else recent_avg
    if recent_avg < earlier_avg - 10 then (true, "decreasing")
    else if earlier_avg + 10 < recent_avg then (false, "increasing")
    else (false, "stable")
  else (false, "stable")

/-- Meal-timing rule (lines 503-518): returns (rule fires,
`hours_since_meal`); the most recent meal is the head of the list. -/
def mealCalc (ctx : EnhancedPatientContext) (now : Int) : Bool × Option ℚ :=
  match ctx.recent_meal_logs with
  | [] => (false, none)
  | m :: _ =>
      let hours_since_meal : ℚ := ((now - m.timestamp : Int) : ℚ) / 60
      (decide (6 < hours_since_meal), some hours_since_meal)

/-- Activity rule (lines 521-539): fires (and sets `recent_activity`) when
the most recent activity is less than 4 hours old. -/
def activityCalc (ctx : EnhancedPatientContext) (now : Int) : Bool :=
  match ctx.recent_activity_logs with
  | [] => false
  | a :: _ => decide (((now - a.timestamp : Int) : ℚ) / 60 < 4)

/-- Insulin-without-meal rule (lines 542-565): the most recent medication
log whose name contains "insulin" (case-insensitive) is strictly after the
most recent meal log. -/
def insulinCalc (ctx : EnhancedPatientContext) : Bool :=
  if ctx.recent_medication_logs.isEmpty || ctx.patient.medications.isEmpty then false
  else
    match ctx.recent_medication_logs.filter
        (fun l => strContains "insulin" l.medication_name.toLower) with
    | [] => false
    | i :: _ =>
        match ctx.recent_meal_logs with
        | [] => false
        | m :: _ => decide (m.timestamp < i.timestamp)

/-- Sum of the four rule contributions other than the recent-low rule, in
source order (trend 0.2, meal 0.2, activity 0.15, insulin 0.15). -/
def riskRest (ctx : EnhancedPatientContext) (now : Int) : ℚ :=
  (if (trendCalc ctx).1 then 2 / 10 else 0) +
  (if (mealCalc ctx now).1 then 2 / 10 else 0) +
  (if activityCalc ctx now then 3 / 20 else 0) +
  (if insulinCalc ctx then 3 / 20 else 0)

/-- `_analyze_hypoglycemia_risk` (lines 471-576); `now` stands for the two
`get_singapore_now()` wall-clock calls. -/
def analyze_hypoglycemia_risk (ctx : EnhancedPatientContext) (now : Int) :
    Option HypoglycemiaRiskFactors :=
  if ctx.recent_glucose_readings.isEmpty then none else
  let lowF := recentLowFires ctx
  let trend := trendCalc ctx
  let meal := mealCalc ctx now
  let act := activityCalc ctx now
  let insulin := insulinCalc ctx
  some { risk_score :=
           min2 1 ((if lowF then 3 / 10 else 0) + riskRest ctx now),
         contributing_factors :=
           (if lowF then ["Recent low glucose readings"] else []) ++
           (if trend.1 then ["Decreasing glucose trend"] else []) ++
           (if meal.1 then ["Long time since last meal"] else []) ++
           (if act then ["Recent physical activity"] else []) ++
           (if insulin then ["Insulin taken without recent meal"] else []),
         last_meal_hours_ago := meal.2,
         recent_activity := act,
         medication_timing_risk := insulin,
         glucose_trend := trend.2 }

/-! `_analyze_lifestyle_consistency` (lines 579-674). -/

/-- Timing-consistency score `max(0, 1 - stddev/120)` over
minutes-since-midnight (lines 603-609 and 632-636). -/
noncomputable def timingConsistency (times : List Int) : ℝ :=
  max 0 (1 - Real.sqrt (popVar (times.map (fun t => (t : ℚ))) : ℚ) / 120)

/-- Decides `timingConsistency times < 0.6` in exact rational arithmetic:
since the score is `max(0, 1 - sqrt(v)/120)` with `sqrt(v) >= 0`, it is
below 0.6 exactly when `sqrt(v) > 48`, i.e. when `v > 2304` (the
equivalence is proved in `timingNeedsWork_iff` below). -/
def timingNeedsWork (times : List Int) : Bool :=
  decide ((2304 : ℚ) < popVar (times.map (fun t => (t : ℚ))))

/-- Number of distinct Singapore-local dates with an activity log,
`len(activity_days)` (lines 646-658). -/
def distinctActivityDays (ctx : EnhancedPatientContext) : Nat :=
  (dedupF (ctx.recent_activity_logs.map (fun a => dateOfMin a.timestamp))).length

/-- Activity day-coverage score (line 658):
`len(activity_days) / days_of_history` when there are activity logs and
`days_of_history > 0`; note it is NOT capped at 1. -/
def activityCoverage (ctx : EnhancedPatientContext) : ℚ :=
  if ctx.recent_activity_logs.isEmpty then 1 / 2
  else if 0 < ctx.days_of_history then
    (distinctActivityDays ctx : ℚ) / (ctx.days_of_history : ℚ)
  else 0

/-- `_analyze_lifestyle_consistency` (lines 579-674). -/
noncomputable def analyze_lifestyle_consistency (ctx : EnhancedPatientContext) :
    Option LifestyleConsistency :=
  if ctx.recent_meal_logs.isEmpty && ctx.recent_medication_logs.isEmpty &&
      ctx.recent_activity_logs.isEmpty then none else
  let meal_times := ctx.recent_meal_logs.map (fun m => minOfDay m.timestamp)
  let meal_consistency : ℝ :=
    if ctx.recent_meal_logs.isEmpty then 1 / 2
    else if 2 ≤ meal_times.length then timingConsistency meal_times else 1 / 2
  let meal_areas : List String :=
    if ctx.recent_meal_logs.isEmpty then ["Regular meal logging"]
    else if 2 ≤ meal_times.length && timingNeedsWork meal_times then
      ["Meal timing consistency"]
    else []
  let med_times := ctx.recent_medication_logs.map (fun m => minOfDay m.timestamp)
  let medication_consistency : ℝ :=
    if ctx.recent_medication_logs.isEmpty then 1 / 2
    else if 2 ≤ med_times.length then timingConsistency med_times else 1 / 2
  let med_areas : List String :=
    if ctx.recent_medication_logs.isEmpty then ["Regular medication logging"]
    else if 2 ≤ med_times.length && timingNeedsWork med_times then
      ["Medication timing consistency"]
    else []
  let activity_consistency : ℚ := activityCoverage ctx
  let act_areas : List String :=
    if ctx.recent_activity_logs.isEmpty then ["Activity logging"]
    else if activity_consistency < 1 / 2 then ["Regular physical activity"]
    else []
  some { overall_score :=
           (meal_consistency + medication_consistency + (activity_consistency : ℝ)) / 3,
         meal_timing_consistency := meal_consistency,
         medication_timing_consistency := medication_consistency,
         activity_consistency := (activity_consistency : ℝ),
         areas_needing_improvement := meal_areas ++ med_areas ++ act_areas }

/-- Hour formatting `f"{hour}:00"` (lines 713, 724, 733). -/
def hourString (h : Int) : String := toString h ++ ":00"

/-- `_generate_personalized_targets` (lines 677-742); the
`meal_correlations` and `lifestyle_consistency` parameters are accepted but
never read, exactly as in the source. -/
def generate_personalized_targets (ctx : EnhancedPatientContext)
    (circadian : Option CircadianPattern)
    (_meal_correlations : GlucoseMealCorrelationMatrix)
    (medication_effectiveness : List MedicationTimingEffectiveness)
    (_lifestyle_consistency : Option LifestyleConsistency) :
    Option PersonalizedTargets :=
  if ctx.recent_glucose_readings.isEmpty then none else
  let avg_glucose := meanQ (ctx.recent_glucose_readings.map (·.reading))
  let rmr : ℚ × ℚ × String :=
    if ctx.patient.conditions.contains "Type 2 Diabetes" then
      if avg_glucose < 140 then
        (80, 140,
         "Your glucose control is good. Maintaining 80-140 mg/dL will help prevent complications.")
      else
        (80, 180,
         "Your glucose levels are elevated. Aim for 80-180 mg/dL initially, then work toward 80-140 mg/dL with your healthcare provider.")
    else (70, 140, "Standard target range for diabetes management.")
  let best_meal_times :=
    match circadian with
    | some c => (c.low_hours.take 2).map hourString
    | none => []
  let best_meal_times :=
    if best_meal_times.isEmpty then ["08:00", "12:00", "18:00"] else best_meal_times
  let best_activity_times :=
    match circadian with
    | some c => (c.peak_hours.take 2).map (fun h => hourString (Int.emod (h - 2) 24))
    | none => []
  let best_activity_times :=
    if best_activity_times.isEmpty then ["06:00", "18:00"] else best_activity_times
  let medication_optimization :=
    medication_effectiveness.foldl
      (fun acc me =>
        match me.optimal_timing_hour with
        | some h => dictInsert me.medication_name (hourString h) acc
        | none => acc) []
  some { suggested_glucose_range_min := rmr.1,
         suggested_glucose_range_max := rmr.2.1,
         rationale := rmr.2.2,
         best_meal_times := best_meal_times,
         best_activity_times := best_activity_times,
         medication_optimization := medication_optimization }

/-- The orchestrator `analyze_patterns` (lines 29-79): straight-line calls
of the nine analyzers over one snapshot; `now` models the wall clock read
inside `_analyze_hypoglycemia_risk`. -/
noncomputable def analyze_patterns (ctx : EnhancedPatientContext) (now : Int) :
    PatternAnalysisResult :=
  let circadian := analyze_circadian_patterns ctx
  let meal_correlations := analyze_meal_glucose_correlations ctx
  let medication_effectiveness := analyze_medication_timing ctx
  let spike_patterns := analyze_glucose_spikes ctx
  let activity_correlations := analyze_activity_glucose_correlations ctx
  let weight_correlations := analyze_weight_glucose_correlation ctx
  let hypoglycemia_risk := analyze_hypoglycemia_risk ctx now
  let lifestyle_consistency := analyze_lifestyle_consistency ctx
  let personalized_targets :=
    generate_personalized_targets ctx circadian meal_correlations
      medication_effectiveness lifestyle_consistency
  { circadian_pattern := circadian,
    meal_glucose_correlations := meal_correlations,
    medication_effectiveness := medication_effectiveness,
    spike_patterns := spike_patterns,
    activity_correlations := activity_correlations,
    weight_correlations := weight_correlations,
    hypoglycemia_risk := hypoglycemia_risk,
    lifestyle_consistency := lifestyle_consistency,
    personalized_targets := personalized_targets }

/-- The orchestrator with the analyzers abstracted as possibly-raising
computations (`Except` models a Python function that may raise).  The body
is the same straight-line sequence as `analyze_patterns`, which has no
`try`/`except` around any analyzer call, so a raise anywhere aborts the
whole call.  Instantiating every analyzer with its pure embedding recovers
`analyze_patterns` (see `analyzePatternsExcept_pure`). -/
def analyzePatternsExcept (E : Type)
    (fCircadian : EnhancedPatientContext → Except E (Option CircadianPattern))
    (fMeal : EnhancedPatientContext → Except E GlucoseMealCorrelationMatrix)
    (fMedication : EnhancedPatientContext → Except E (List MedicationTimingEffectiveness))
    (fSpikes : EnhancedPatientContext → Except E (Option GlucoseSpikePattern))
    (fActivity : EnhancedPatientContext → Except E (List ActivityGlucoseCorrelation))
    (fWeight : EnhancedPatientContext → Except E (Option WeightGlucoseCorrelation))
    (fHypo : EnhancedPatientContext → Except E (Option HypoglycemiaRiskFactors))
    (fLifestyle : EnhancedPatientContext → Except E (Option LifestyleConsistency))
    (fTargets : EnhancedPatientContext → Option CircadianPattern →
      GlucoseMealCorrelationMatrix → List MedicationTimingEffectiveness →
      Option LifestyleConsistency → Except E (Option PersonalizedTargets))
    (ctx : EnhancedPatientContext) : Except E PatternAnalysisResult := do
  let circadian ← fCircadian ctx
  let meal_correlations ← fMeal ctx
  let medication_effectiveness ← fMedication ctx
  let spike_patterns ← fSpikes ctx
  let activity_correlations ← fActivity ctx
  let weight_correlations ← fWeight ctx
  let hypoglycemia_risk ← fHypo ctx
  let lifestyle_consistency ← fLifestyle ctx
  let personalized_targets ←
    fTargets ctx circadian meal_correlations medication_effectiveness
      lifestyle_consistency
  pure { circadian_pattern := circadian,
         meal_glucose_correlations := meal_correlations,
         medication_effectiveness := medication_effectiveness,
         spike_patterns := spike_patterns,
         activity_correlations := activity_correlations,
         weight_correlations := weight_correlations,
         hypoglycemia_risk := hypoglycemia_risk,
         lifestyle_consistency := lifestyle_consistency,
         personalized_targets := personalized_targets }

/-! Definitions taken from the CLAIM text rather than the source, for the
refinement comparison of claim C6 (activity correlation).  They are named
`spec...` and are used only to exhibit the divergence from the code. -/

/-- Modelled from the claim wording of C6: glucose items strictly more than
1 hour and at most 3 hours after an activity start. -/
def specAfterPairs (gbt : List (Int × ℚ)) (t : Int) : List (Int × ℚ) :=
  gbt.filter (fun p => decide (t + 60 < p.1) && decide (p.1 ≤ t + 180))

/-- Modelled from the claim wording of C6: count only instances with at
least one before-reading and one (spec-window) after-reading, pool ALL
in-window readings of the counted instances, and subtract pooled means. -/
def specActivityChange (gbt : List (Int × ℚ)) (alogs : List RecentActivityLog) : ℚ :=
  let counted := alogs.filter (fun a =>
    !(beforePairs gbt a.timestamp).isEmpty && !(specAfterPairs gbt a.timestamp).isEmpty)
  let baseline := (counted.map (fun a => (beforePairs gbt a.timestamp).map (·.2))).flatten
  let response := (counted.map (fun a => (specAfterPairs gbt a.timestamp).map (·.2))).flatten
  meanQ response - meanQ baseline

/-! Concrete snapshots used as counterexamples and witnesses. -/

/-- One glucose reading and one meal, for probing wall-clock dependence. -/
def ctxC1 : EnhancedPatientContext :=
  { recent_glucose_readings := [gr 100 1000], recent_meal_logs := [ml "Lunch" 600] }

/-- Two activity logs on two distinct local days with `days_of_history = 1`,
so day coverage is 2/1. -/
def ctxC2 : EnhancedPatientContext :=
  { recent_activity_logs := [al "walk" 100, al "walk" 2000], days_of_history := 1 }

/-- A snapshot with one in-range glucose reading and one activity log on a
single local day, used to instantiate the bounded-scores theorem on both
its unconditional and its day-coverage-guarded parts. -/
def ctxC2w : EnhancedPatientContext :=
  { recent_glucose_readings := [gr 100 0],
    recent_activity_logs := [al "walk" 100] }

/-- The hypoglycemia result the code produces on `ctxC2w` at wall-clock
minute 0 (the activity is within 4 hours, so that rule fires). -/
def rC2w : HypoglycemiaRiskFactors :=
  { risk_score := 3 / 20,
    contributing_factors := ["Recent physical activity"],
    last_meal_hours_ago := none, recent_activity := true,
    medication_timing_risk := false, glucose_trend := "stable" }

/-- The lifestyle result the code produces on `ctxC2w`: default 0.5 timing
scores, day coverage 1/7, overall (1/2 + 1/2 + 1/7)/3 = 8/21. -/
noncomputable def LC2w : LifestyleConsistency :=
  { overall_score := 8 / 21,
    meal_timing_consistency := 1 / 2,
    medication_timing_consistency := 1 / 2,
    activity_consistency := 1 / 7,
    areas_needing_improvement :=
      ["Regular meal logging", "Regular medication logging",
       "Regular physical activity"] }

/-- An arbitrary snapshot fed to the orchestrator with a raising analyzer. -/
def ctxC4 : EnhancedPatientContext :=
  { recent_glucose_readings := [gr 90 0] }

/-- A second snapshot for the propagation witness. -/
def ctxC4b : EnhancedPatientContext :=
  { recent_meal_logs := [ml "Toast" 480] }

/-- The meal scenario of the spec: "Rice" at 12:00, baseline 100 at 11:30,
responses 130 at 13:00 and 160 at 14:00 (minutes 690/720/780/840). -/
def ctxRice : EnhancedPatientContext :=
  { recent_glucose_readings := [gr 100 690, gr 130 780, gr 160 840],
    recent_meal_logs := [ml "Rice" 720] }

/-- Activity snapshot separating the code's pick-one-reading pooling from
the claim's mean-of-all-readings with per-instance pairing: a "walk" at
minute 1000 with two before-readings (100, 120), an after-reading 140
exactly at +1h and 150 at +1.5h, plus a second "walk" at minute 5000 that
has an after-reading (200) but no before-reading. -/
def ctxC6 : EnhancedPatientContext :=
  { recent_glucose_readings :=
      [gr 100 970, gr 120 990, gr 140 1060, gr 150 1090, gr 200 5100],
    recent_activity_logs := [al "walk" 1000, al "walk" 5000] }

/-- A single glucose reading of 75 mg/dL: at or above 70, below 80. -/
def ctxC7 : EnhancedPatientContext :=
  { recent_glucose_readings := [gr 75 0] }

/-- A single glucose reading, hence exactly one non-empty hour bucket. -/
def ctxC8 : EnhancedPatientContext :=
  { recent_glucose_readings := [gr 100 0] }

/-- Readings in two different hour buckets (hours 0 and 1). -/
def ctxC8w : EnhancedPatientContext :=
  { recent_glucose_readings := [gr 100 0, gr 120 60] }

/-- The medication scenario of the spec: "Metformin" logged 5 times (every
day at 08:00) over a 7-day window. -/
def ctxC9 : EnhancedPatientContext :=
  { patient := { medications := ["Metformin"] },
    recent_medication_logs :=
      [mdl "Metformin" 480, mdl "Metformin" 1920, mdl "Metformin" 3360,
       mdl "Metformin" 4800, mdl "Metformin" 6240],
    days_of_history := 7 }

/-- Exactly three glucose readings: between 3 and 5 readings exist. -/
def ctxC10 : EnhancedPatientContext :=
  { recent_glucose_readings := [gr 100 0, gr 100 10, gr 100 20] }

/-- The single correlation record the code produces on `ctxC6`. -/
def recC6 : ActivityGlucoseCorrelation :=
  { activity_type := "walk", avg_glucose_before := some 120,
    avg_glucose_after := some 170, glucose_change := 50,
    optimal_timing_hour := some 16 }

/-- The single effectiveness entry the code produces on `ctxC9`. -/
def entryC9 : MedicationTimingEffectiveness :=
  { medication_name := "Metformin", optimal_timing_hour := some 8,
    missed_dose_impact := none, adherence_rate := 500 / 7,
    effectiveness_score := 5 / 7 }

/-! Helper lemmas about the list machinery. -/

/-- Membership is preserved by the stable insert. -/
theorem mem_insertLe {le : α → α → Bool} {a x : α} {l : List α} :
    x ∈ insertLe le a l ↔ x = a ∨ x ∈ l := by
  induction l with
  | nil => simp [insertLe]
  | cons b bs ih =>
      simp only [insertLe]
      split
      · simp only [List.mem_cons, ih]
        tauto
      · simp only [List.mem_cons]

/-- Membership is preserved by the sorting fold. -/
theorem mem_sortLe_foldl {le : α → α → Bool} (l acc : List α) (x : α) :
    x ∈ l.foldl (fun acc a => insertLe le a acc) acc ↔ x ∈ acc ∨ x ∈ l := by
  induction l generalizing acc with
  | nil => simp
  | cons a as ih =>
      simp only [List.foldl_cons, ih, mem_insertLe, List.mem_cons]
      tauto

/-- Membership is preserved by the stable sort. -/
theorem mem_sortLe {le : α → α → Bool} {l : List α} {x : α} :
    x ∈ sortLe le l ↔ x ∈ l := by
  simp [sortLe, mem_sortLe_foldl]

/-- A value produced by the baseline scan either was the incoming
accumulator or stems from a scanned item at or before `t`. -/
theorem baselineLoop_eq_some {t : Int} {l : List (Int × ℚ)} {acc : Option ℚ} {b : ℚ}
    (h : baselineLoop t l acc = some b) :
    acc = some b ∨ ∃ p ∈ l, p.1 ≤ t ∧ p.2 = b := by
  induction l generalizing acc with
  | nil => exact Or.inl h
  | cons p rest ih =>
      obtain ⟨d, g⟩ := p
      simp only [baselineLoop] at h
      split at h
      · rcases ih h with h1 | ⟨q, hq, hqt, hqb⟩
        · right
          refine ⟨(d, g), List.mem_cons_self _ _, ?_, ?_⟩
          · assumption
          · exact (Option.some_inj.mp h1).symm ▸ rfl
        · exact Or.inr ⟨q, List.mem_cons_of_mem _ hq, hqt, hqb⟩
      · exact Or.inl h

/-- When every scanned item is strictly later than `t`, the baseline scan
returns its accumulator unchanged. -/
theorem baselineLoop_all_late {t : Int} {l : List (Int × ℚ)}
    (h : ∀ p ∈ l, t < p.1) (acc : Option ℚ) :
    baselineLoop t l acc = acc := by
  cases l with
  | nil => rfl
  | cons p rest =>
      obtain ⟨d, g⟩ := p
      simp only [baselineLoop]
      rw [if_neg (not_le.mpr (h (d, g) (List.mem_cons_self _ _)))]

/-- A nonempty filtered list is inhabited by an element satisfying the
predicate. -/
theorem filter_isEmpty_false_iff {p : α → Bool} {l : List α} :
    (l.filter p).isEmpty = false ↔ ∃ x ∈ l, p x = true := by
  rw [List.isEmpty_eq_false_iff_exists_mem]
  constructor
  · rintro ⟨x, hx⟩
    rw [List.mem_filter] at hx
    exact ⟨x, hx.1, hx.2⟩
  · rintro ⟨x, hx, hp⟩
    exact ⟨x, List.mem_filter.mpr ⟨hx, hp⟩⟩

/-- Membership in a conditional singleton block of the factor list. -/
theorem mem_if_singleton {s t : String} {b : Bool} :
    s ∈ (if b then [t] else []) ↔ b = true ∧ s = t := by
  cases b <;> simp

/-- The capped score `min(1.0, x)` never exceeds 1. -/
theorem min2_one_le (x : ℚ) : min2 1 x ≤ 1 := by
  unfold min2
  split
  · exact le_refl 1
  · exact le_of_not_le (by assumption)

/-- The capped score `min(1.0, x)` is nonnegative when `x` is. -/
theorem min2_one_nonneg (x : ℚ) (hx : 0 ≤ x) : 0 ≤ min2 1 x := by
  unfold min2
  split
  · norm_num
  · exact hx

/-- The four non-recent-low risk contributions are all nonnegative. -/
theorem riskRest_nonneg (ctx : EnhancedPatientContext) (now : Int) :
    0 ≤ riskRest ctx now := by
  unfold riskRest
  have h : ∀ (b : Bool) (q : ℚ), 0 ≤ q → 0 ≤ (if b then q else 0) := by
    intro b q hq
    cases b <;> simp [hq]
  refine add_nonneg (add_nonneg (add_nonneg ?_ ?_) ?_) ?_ <;>
    first
      | exact h _ _ (by norm_num)

/-- The population variance is nonnegative. -/
theorem popVar_nonneg (l : List ℚ) : 0 ≤ popVar l := by
  unfold popVar
  refine div_nonneg (List.sum_nonneg ?_) (by positivity)
  intro x hx
  obtain ⟨y, _, rfl⟩ := List.mem_map.mp hx
  positivity

/-- The timing-consistency score is nonnegative. -/
theorem timingConsistency_nonneg (ts : List Int) : 0 ≤ timingConsistency ts :=
  le_max_left 0 _

/-- The timing-consistency score never exceeds 1. -/
theorem timingConsistency_le_one (ts : List Int) : timingConsistency ts ≤ 1 := by
  unfold timingConsistency
  refine max_le (by norm_num) ?_
  have h := Real.sqrt_nonneg ((popVar (ts.map (fun t => (t : ℚ))) : ℚ) : ℝ)
  have h120 : (0 : ℝ) ≤ Real.sqrt ((popVar (ts.map (fun t => (t : ℚ))) : ℚ) : ℝ) / 120 := by
    positivity
  linarith

/-- The rational test `timingNeedsWork` decides exactly the source condition
`consistency < 0.6`: with `s = sqrt v ≥ 0`, `max 0 (1 - s/120) < 0.6` holds
exactly when `s > 48`, i.e. when `v > 2304`. -/
theorem timingNeedsWork_iff (ts : List Int) :
    timingNeedsWork ts = true ↔ timingConsistency ts < 3 / 5 := by
  unfold timingNeedsWork timingConsistency
  rw [decide_eq_true_eq, max_lt_iff]
  have hs : (0 : ℝ) ≤ Real.sqrt ((popVar (ts.map (fun t => (t : ℚ))) : ℚ) : ℝ) :=
    Real.sqrt_nonneg _
  constructor
  · intro h
    refine ⟨by norm_num, ?_⟩
    have h1 : (2304 : ℝ) < ((popVar (ts.map (fun t => (t : ℚ))) : ℚ) : ℝ) := by
      exact_mod_cast h
    have h48 : (48 : ℝ) < Real.sqrt ((popVar (ts.map (fun t => (t : ℚ))) : ℚ) : ℝ) := by
      rw [Real.lt_sqrt (by norm_num)]
      nlinarith
    linarith
  · rintro ⟨-, h⟩
    by_contra hle
    push_neg at hle
    have h1 : ((popVar (ts.map (fun t => (t : ℚ))) : ℚ) : ℝ) ≤ (2304 : ℝ) := by
      exact_mod_cast hle
    have h48 : Real.sqrt ((popVar (ts.map (fun t => (t : ℚ))) : ℚ) : ℝ) ≤ 48 := by
      rw [Real.sqrt_le_iff]
      exact ⟨by norm_num, by nlinarith⟩
    linarith

/-- Day-coverage is a genuine ratio bound: it lies in `[0,1]` exactly when
the distinct-day count does not exceed a positive `days_of_history` (and
trivially in the degenerate branches). -/
theorem activityCoverage_bounds (ctx : EnhancedPatientContext)
    (hact : (distinctActivityDays ctx : Int) ≤ ctx.days_of_history ∨
      ctx.days_of_history ≤ 0) :
    0 ≤ activityCoverage ctx ∧ activityCoverage ctx ≤ 1 := by
  unfold activityCoverage
  split
  · norm_num
  · split
    · rename_i hpos
      rcases hact with h | h
      · constructor
        · positivity
        · rw [div_le_one (by exact_mod_cast hpos)]
          exact_mod_cast h
      · exact absurd hpos (not_lt.mpr h)
    · norm_num

/-- The recent-low rule fires exactly when one of the five most recent
readings is below 80 mg/dL. -/
theorem recentLowFires_iff (ctx : EnhancedPatientContext) :
    recentLowFires ctx = true ↔
      ∃ g ∈ ctx.recent_glucose_readings.take 5, g.reading < 80 := by
  rw [recentLowFires, Bool.not_eq_true', filter_isEmpty_false_iff]
  simp only [decide_eq_true_eq]

/-- Reduction of an `Except` bind on a success value. -/
theorem except_ok_bind {E α β : Type} (a : α) (f : α → Except E β) :
    (Except.ok a >>= f) = f a := rfl

/-- Reduction of an `Except` bind on an error value. -/
theorem except_error_bind {E α β : Type} (e : E) (f : α → Except E β) :
    ((Except.error e : Except E α) >>= f) = (Except.error e : Except E β) := rfl

/-! Claim theorems. -/

/-- Claim C1, counterexample.  The claim says the orchestrator output
depends only on the snapshot and never on the wall-clock time of the call;
but on `ctxC1` (whose last meal is at minute 600) running with the wall
clock at minute 660 versus minute 1320 changes the hypoglycemia sub-result
(risk 0 without the meal-timing factor versus risk 0.2 with it), so the two
`PatternAnalysisResult` values differ. -/
theorem C1_counterexample :
    (analyze_patterns ctxC1 660).hypoglycemia_risk ≠
      (analyze_patterns ctxC1 1320).hypoglycemia_risk := by
  have h1 : analyze_hypoglycemia_risk ctxC1 660 =
      some { risk_score := 0, contributing_factors := [],
             last_meal_hours_ago := some 1, recent_activity := false,
             medication_timing_risk := false, glucose_trend := "stable" } := by
    norm_num [analyze_hypoglycemia_risk, recentLowFires, trendCalc, mealCalc,
      activityCalc, insulinCalc, riskRest, min2, ctxC1, gr, ml]
  have h2 : analyze_hypoglycemia_risk ctxC1 1320 =
      some { risk_score := 1 / 5,
             contributing_factors := ["Long time since last meal"],
             last_meal_hours_ago := some 12, recent_activity := false,
             medication_timing_risk := false, glucose_trend := "stable" } := by
    norm_num [analyze_hypoglycemia_risk, recentLowFires, trendCalc, mealCalc,
      activityCalc, insulinCalc, riskRest, min2, ctxC1, gr, ml]
  show analyze_hypoglycemia_risk ctxC1 660 ≠ analyze_hypoglycemia_risk ctxC1 1320
  rw [h1, h2]
  simp only [ne_eq, Option.some.injEq, HypoglycemiaRiskFactors.mk.injEq]
  norm_num

/-- Claim C1, amended: only the hypoglycemia sub-result reads the wall
clock; every other component of `analyze_patterns` is a function of the
snapshot alone, so two runs on the identical snapshot agree on all eight
remaining fields whatever the two wall-clock instants are. -/
theorem C1_now_independent_components (ctx : EnhancedPatientContext) (t1 t2 : Int) :
    (analyze_patterns ctx t1).circadian_pattern =
        (analyze_patterns ctx t2).circadian_pattern ∧
    (analyze_patterns ctx t1).meal_glucose_correlations =
        (analyze_patterns ctx t2).meal_glucose_correlations ∧
    (analyze_patterns ctx t1).medication_effectiveness =
        (analyze_patterns ctx t2).medication_effectiveness ∧
    (analyze_patterns ctx t1).spike_patterns =
        (analyze_patterns ctx t2).spike_patterns ∧
    (analyze_patterns ctx t1).activity_correlations =
        (analyze_patterns ctx t2).activity_correlations ∧
    (analyze_patterns ctx t1).weight_correlations =
        (analyze_patterns ctx t2).weight_correlations ∧
    (analyze_patterns ctx t1).lifestyle_consistency =
        (analyze_patterns ctx t2).lifestyle_consistency ∧
    (analyze_patterns ctx t1).personalized_targets =
        (analyze_patterns ctx t2).personalized_targets :=
  ⟨rfl, rfl, rfl, rfl, rfl, rfl, rfl, rfl⟩

/-- Claim C3, confirmed: causality of the temporal join.  (1) A baseline
produced for a trigger at `t` is the value of a glucose item whose instant
is at or before `t`; (2) when every glucose item is strictly later than the
trigger, no baseline is produced; (3) a trigger without a baseline is
skipped (contributes no spike); (4) every glucose item pooled into an
activity baseline window is strictly before its trigger instant. -/
theorem C3_causality (gbt : List (Int × ℚ)) (t : Int) (b : ℚ) :
    (mealBaseline gbt t = some b → ∃ p ∈ gbt, p.1 ≤ t ∧ p.2 = b) ∧
    ((∀ p ∈ gbt, t < p.1) → mealBaseline gbt t = none) ∧
    (mealBaseline gbt t = none → mealSpikeAt gbt t = none) ∧
    (∀ p ∈ beforePairs gbt t, p.1 < t) := by
  refine ⟨?_, ?_, ?_, ?_⟩
  · intro h
    rcases baselineLoop_eq_some h with h1 | ⟨q, hq, hqt, hqb⟩
    · exact absurd h1 (by simp)
    · exact ⟨q, mem_sortLe.mp hq, hqt, hqb⟩
  · intro h
    exact baselineLoop_all_late (fun p hp => h p (mem_sortLe.mp hp)) none
  · intro h
    simp [mealSpikeAt, h]
  · intro p hp
    have := (List.mem_filter.mp hp).2
    simp only [Bool.and_eq_true, decide_eq_true_eq] at this
    exact this.2

/-- Witness for C3 at a concrete stream: one glucose item at minute 3 with
value 100 and a trigger at minute 5. -/
theorem C3_causality_witness :
    (∃ p ∈ [((3 : Int), (100 : ℚ))], p.1 ≤ 5 ∧ p.2 = 100) ∧
    (∀ p ∈ beforePairs [((3 : Int), (100 : ℚ))] 5, p.1 < 5) :=
  ⟨(C3_causality [((3 : Int), (100 : ℚ))] 5 100).1 (by decide),
   (C3_causality [((3 : Int), (100 : ℚ))] 5 100).2.2.2⟩

/-- Claim C4, counterexample.  With the eight other analyzers behaving as
in the source and the hypoglycemia analyzer raising, the orchestrator
(which has no per-analyzer `try`/`except`, lines 29-79) returns the raised
error rather than an aggregate with that one field absent. -/
theorem C4_counterexample :
    analyzePatternsExcept String
      (fun c => Except.ok (analyze_circadian_patterns c))
      (fun c => Except.ok (analyze_meal_glucose_correlations c))
      (fun c => Except.ok (analyze_medication_timing c))
      (fun c => Except.ok (analyze_glucose_spikes c))
      (fun c => Except.ok (analyze_activity_glucose_correlations c))
      (fun c => Except.ok (analyze_weight_glucose_correlation c))
      (fun _ => Except.error "unexpected exception in analyzer")
      (fun c => Except.ok (analyze_lifestyle_consistency c))
      (fun c ci me md ls =>
        Except.ok (generate_personalized_targets c ci me md ls))
      ctxC4
      = Except.error "unexpected exception in analyzer" := rfl

/-- Instantiating the abstract orchestrator with the pure embeddings of all
nine analyzers recovers `analyze_patterns`: the abstraction is faithful. -/
theorem analyzePatternsExcept_pure (ctx : EnhancedPatientContext) (now : Int) :
    analyzePatternsExcept Unit
      (fun c => Except.ok (analyze_circadian_patterns c))
      (fun c => Except.ok (analyze_meal_glucose_correlations c))
      (fun c => Except.ok (analyze_medication_timing c))
      (fun c => Except.ok (analyze_glucose_spikes c))
      (fun c => Except.ok (analyze_activity_glucose_correlations c))
      (fun c => Except.ok (analyze_weight_glucose_correlation c))
      (fun c => Except.ok (analyze_hypoglycemia_risk c now))
      (fun c => Except.ok (analyze_lifestyle_consistency c))
      (fun c ci me md ls =>
        Except.ok (generate_personalized_targets c ci me md ls))
      ctx = Except.ok (analyze_patterns ctx now) := rfl

/-- Claim C4, amended: `analyze_patterns` contains no per-analyzer
exception boundary, so an exception raised inside an analyzer propagates to
the caller (here: whenever the six analyzers called before the hypoglycemia
analyzer succeed and the hypoglycemia analyzer raises `e`, the orchestrator
returns `e` instead of an aggregate with the field absent).  Only
per-record parse failures inside an analyzer are swallowed. -/
theorem C4_exception_propagates (E : Type)
    (fC : EnhancedPatientContext → Except E (Option CircadianPattern))
    (fM : EnhancedPatientContext → Except E GlucoseMealCorrelationMatrix)
    (fMed : EnhancedPatientContext → Except E (List MedicationTimingEffectiveness))
    (fS : EnhancedPatientContext → Except E (Option GlucoseSpikePattern))
    (fA : EnhancedPatientContext → Except E (List ActivityGlucoseCorrelation))
    (fW : EnhancedPatientContext → Except E (Option WeightGlucoseCorrelation))
    (fH : EnhancedPatientContext → Except E (Option HypoglycemiaRiskFactors))
    (fL : EnhancedPatientContext → Except E (Option LifestyleConsistency))
    (fT : EnhancedPatientContext → Option CircadianPattern →
      GlucoseMealCorrelationMatrix → List MedicationTimingEffectiveness →
      Option LifestyleConsistency → Except E (Option PersonalizedTargets))
    (ctx : EnhancedPatientContext)
    (c : Option CircadianPattern) (m : GlucoseMealCorrelationMatrix)
    (md : List MedicationTimingEffectiveness) (s : Option GlucoseSpikePattern)
    (a : List ActivityGlucoseCorrelation) (w : Option WeightGlucoseCorrelation)
    (e : E)
    (hC : fC ctx = Except.ok c) (hM : fM ctx = Except.ok m)
    (hMed : fMed ctx = Except.ok md) (hS : fS ctx = Except.ok s)
    (hA : fA ctx = Except.ok a) (hW : fW ctx = Except.ok w)
    (hH : fH ctx = Except.error e) :
    analyzePatternsExcept E fC fM fMed fS fA fW fH fL fT ctx = Except.error e := by
  simp only [analyzePatternsExcept, hC, except_ok_bind, hM, hMed, hS, hA, hW,
    hH, except_error_bind]

/-- Witness for C4: a concrete instantiation in which the hypoglycemia
analyzer raises and the error reaches the caller. -/
theorem C4_exception_propagates_witness :
    analyzePatternsExcept Nat
      (fun c => Except.ok (analyze_circadian_patterns c))
      (fun c => Except.ok (analyze_meal_glucose_correlations c))
      (fun c => Except.ok (analyze_medication_timing c))
      (fun c => Except.ok (analyze_glucose_spikes c))
      (fun c => Except.ok (analyze_activity_glucose_correlations c))
      (fun c => Except.ok (analyze_weight_glucose_correlation c))
      (fun _ => Except.error 1)
      (fun c => Except.ok (analyze_lifestyle_consistency c))
      (fun c ci me md ls =>
        Except.ok (generate_personalized_targets c ci me md ls))
      ctxC4b = Except.error 1 :=
  C4_exception_propagates Nat _ _ _ _ _ _ _ _ _ ctxC4b
    (analyze_circadian_patterns ctxC4b)
    (analyze_meal_glucose_correlations ctxC4b)
    (analyze_medication_timing ctxC4b)
    (analyze_glucose_spikes ctxC4b)
    (analyze_activity_glucose_correlations ctxC4b)
    (analyze_weight_glucose_correlation ctxC4b)
    1 rfl rfl rfl rfl rfl rfl rfl

/-- Claim C5, confirmed: the per-meal delta is `max(response) - baseline`
whenever the meal has a baseline and a nonempty response window, and the
Rice scenario evaluates to a single correlation with delta 60 flagged as a
high spike. -/
theorem C5_meal_spike_delta (gbt : List (Int × ℚ)) (t : Int) (b : ℚ)
    (hb : mealBaseline gbt t = some b) (hr : mealResponses gbt t ≠ []) :
    mealSpikeAt gbt t = some (maxQ (mealResponses gbt t) - b) ∧
    analyze_meal_glucose_correlations ctxRice =
      { best_meals := [], worst_meals := ["Rice"],
        correlations := [{ meal_name := "Rice", avg_glucose_spike := 60,
                           spike_duration_hours := 2, occurrences := 1,
                           is_high_spike := true }],
        avg_spike_all_meals := some 60 } := by
  constructor
  · simp only [mealSpikeAt, hb]
    rw [if_neg (by simpa using hr)]
  · norm_num [analyze_meal_glucose_correlations, glucoseByTime, dictInsert,
      mealSpikeAt, mealBaseline, mealResponses, baselineLoop, sortLe, insertLe,
      appendAt, meanQ, maxQ, max2, ctxRice, gr, ml, List.filterMap_cons,
      List.filterMap_nil, List.isEmpty_cons, List.isEmpty_nil, List.cons_ne_nil,
      ne_eq, List.foldl_cons, List.foldl_nil, List.filter_cons, List.filter_nil,
      List.map_cons, List.map_nil]

/-- Witness for C5 at the Rice scenario itself: baseline 100 at the meal
instant 720, so the recorded spike is the window maximum minus 100. -/
theorem C5_meal_spike_delta_witness :
    mealSpikeAt (glucoseByTime ctxRice.recent_glucose_readings) 720 =
      some (maxQ (mealResponses (glucoseByTime ctxRice.recent_glucose_readings) 720)
        - 100) :=
  (C5_meal_spike_delta (glucoseByTime ctxRice.recent_glucose_readings) 720 100
    (by decide) (by decide)).1

/-- Claim C2, counterexample.  On `ctxC2` (two activity logs on two
distinct local days, `days_of_history = 1`) the activity day-coverage
sub-score is `2/1 = 2`, outside `[0,1]`: the source computes
`len(activity_days) / days_of_history` without capping. -/
theorem C2_counterexample :
    (analyze_lifestyle_consistency ctxC2).map LifestyleConsistency.activity_consistency
      = some 2 ∧ ¬ ((2 : ℝ) ≤ 1) := by
  constructor
  · norm_num [analyze_lifestyle_consistency, activityCoverage,
      distinctActivityDays, dedupF, dateOfMin, Int.fdiv, ctxC2, al]
  · norm_num

/-- Claim C2, amended: the hypoglycemia risk score and the meal and
medication timing consistency sub-scores are ALWAYS in `[0,1]`; the
activity day-coverage sub-score and the overall score are in `[0,1]`
provided the number of distinct activity dates does not exceed
`days_of_history` (the day-coverage score is the uncapped ratio
`distinct_days / days_of_history`, so the proviso is necessary for those
two and only those two). -/
theorem C2_scores_bounded (ctx : EnhancedPatientContext) (now : Int) :
    (∀ r, analyze_hypoglycemia_risk ctx now = some r →
      0 ≤ r.risk_score ∧ r.risk_score ≤ 1) ∧
    (∀ L, analyze_lifestyle_consistency ctx = some L →
      (0 ≤ L.meal_timing_consistency ∧ L.meal_timing_consistency ≤ 1) ∧
      (0 ≤ L.medication_timing_consistency ∧
        L.medication_timing_consistency ≤ 1)) ∧
    ((distinctActivityDays ctx : Int) ≤ ctx.days_of_history ∨
        ctx.days_of_history ≤ 0 →
      ∀ L, analyze_lifestyle_consistency ctx = some L →
        (0 ≤ L.overall_score ∧ L.overall_score ≤ 1) ∧
        (0 ≤ L.activity_consistency ∧ L.activity_consistency ≤ 1)) := by
  have hmeal : 0 ≤ (if ctx.recent_meal_logs.isEmpty = true then (1 : ℝ) / 2
        else if 2 ≤ (ctx.recent_meal_logs.map (fun m => minOfDay m.timestamp)).length
          then timingConsistency (ctx.recent_meal_logs.map (fun m => minOfDay m.timestamp))
          else 1 / 2) ∧
      (if ctx.recent_meal_logs.isEmpty = true then (1 : ℝ) / 2
        else if 2 ≤ (ctx.recent_meal_logs.map (fun m => minOfDay m.timestamp)).length
          then timingConsistency (ctx.recent_meal_logs.map (fun m => minOfDay m.timestamp))
          else 1 / 2) ≤ 1 := by
    split
    · norm_num
    · split
      · exact ⟨timingConsistency_nonneg _, timingConsistency_le_one _⟩
      · norm_num
  have hmed : 0 ≤ (if ctx.recent_medication_logs.isEmpty = true then (1 : ℝ) / 2
        else if 2 ≤ (ctx.recent_medication_logs.map (fun m => minOfDay m.timestamp)).length
          then timingConsistency (ctx.recent_medication_logs.map (fun m => minOfDay m.timestamp))
          else 1 / 2) ∧
      (if ctx.recent_medication_logs.isEmpty = true then (1 : ℝ) / 2
        else if 2 ≤ (ctx.recent_medication_logs.map (fun m => minOfDay m.timestamp)).length
          then timingConsistency (ctx.recent_medication_logs.map (fun m => minOfDay m.timestamp))
          else 1 / 2) ≤ 1 := by
    split
    · norm_num
    · split
      · exact ⟨timingConsistency_nonneg _, timingConsistency_le_one _⟩
      · norm_num
  refine ⟨?_, ?_, ?_⟩
  · intro r h
    rw [analyze_hypoglycemia_risk] at h
    split at h
    · exact absurd h (by simp)
    · rw [Option.some_inj] at h
      rw [← h]
      constructor
      · refine min2_one_nonneg _ (add_nonneg ?_ (riskRest_nonneg ctx now))
        split <;> norm_num
      · exact min2_one_le _
  · intro L hL
    rw [analyze_lifestyle_consistency] at hL
    split at hL
    · exact absurd hL (by simp)
    · rw [Option.some_inj] at hL
      rw [← hL]
      exact ⟨hmeal, hmed⟩
  · intro hact L hL
    have hcovQ := activityCoverage_bounds ctx hact
    have hcov : (0 : ℝ) ≤ (activityCoverage ctx : ℝ) ∧
        ((activityCoverage ctx : ℝ)) ≤ 1 := by
      constructor
      · exact_mod_cast hcovQ.1
      · exact_mod_cast hcovQ.2
    rw [analyze_lifestyle_consistency] at hL
    split at hL
    · exact absurd hL (by simp)
    · rw [Option.some_inj] at hL
      rw [← hL]
      refine ⟨⟨?_, ?_⟩, hcov⟩
      · have := hmeal.1
        have := hmed.1
        have := hcov.1
        simp only
        linarith
      · have := hmeal.2
        have := hmed.2
        have := hcov.2
        simp only
        linarith

/-- Witness for C2 on `ctxC2w`: the unconditional risk-score bound at the
concrete hypoglycemia result, and the day-coverage-guarded bounds at the
concrete lifestyle result with the distinct-days hypothesis discharged
(1 distinct activity day, 7 days of history). -/
theorem C2_scores_bounded_witness :
    ((0 ≤ rC2w.risk_score ∧ rC2w.risk_score ≤ 1) ∧
     (0 ≤ LC2w.meal_timing_consistency ∧ LC2w.meal_timing_consistency ≤ 1) ∧
     (0 ≤ LC2w.medication_timing_consistency ∧
       LC2w.medication_timing_consistency ≤ 1)) ∧
    ((0 ≤ LC2w.overall_score ∧ LC2w.overall_score ≤ 1) ∧
     (0 ≤ LC2w.activity_consistency ∧ LC2w.activity_consistency ≤ 1)) :=
  have hlife : analyze_lifestyle_consistency ctxC2w = some LC2w := by
    norm_num [analyze_lifestyle_consistency, activityCoverage,
      distinctActivityDays, dedupF, dateOfMin, minOfDay, Int.fdiv, LC2w,
      ctxC2w, gr, al, List.isEmpty_cons, List.isEmpty_nil, List.foldl_cons,
      List.foldl_nil, List.map_cons, List.map_nil]
  ⟨⟨(C2_scores_bounded ctxC2w 0).1 rC2w
      (by norm_num [analyze_hypoglycemia_risk, recentLowFires, trendCalc,
        mealCalc, activityCalc, insulinCalc, riskRest, min2, rC2w, ctxC2w,
        gr, al]),
    (C2_scores_bounded ctxC2w 0).2.1 LC2w hlife⟩,
   (C2_scores_bounded ctxC2w 0).2.2 (Or.inl (by decide)) LC2w hlife⟩

/-- Claim C7, counterexample.  On a single reading of 75 mg/dL — at or
above 70, so the claim says the rule must contribute nothing — the code
adds 0.3 and the recent-low factor, because its threshold is 80, not 70. -/
theorem C7_counterexample :
    analyze_hypoglycemia_risk ctxC7 0 =
      some { risk_score := 3 / 10,
             contributing_factors := ["Recent low glucose readings"],
             last_meal_hours_ago := none, recent_activity := false,
             medication_timing_risk := false, glucose_trend := "stable" } ∧
    (∀ g ∈ ctxC7.recent_glucose_readings.take 5, 70 ≤ g.reading) := by
  constructor
  · norm_num [analyze_hypoglycemia_risk, recentLowFires, trendCalc, mealCalc,
      activityCalc, insulinCalc, riskRest, min2, ctxC7, gr]
  · intro g hg
    simp only [ctxC7, List.take, List.mem_singleton] at hg
    rw [hg]
    norm_num [gr]

/-- Claim C7, amended: the recent-low rule fires (appending its factor and
contributing its 0.3 inside the capped sum) if and only if one of the 5
most recent readings is below 80 mg/dL — the source threshold is 80, not
the 70 the claim states. -/
theorem C7_recent_low_rule (ctx : EnhancedPatientContext) (now : Int)
    (r : HypoglycemiaRiskFactors)
    (h : analyze_hypoglycemia_risk ctx now = some r) :
    ("Recent low glucose readings" ∈ r.contributing_factors ↔
      ∃ g ∈ ctx.recent_glucose_readings.take 5, g.reading < 80) ∧
    r.risk_score = min2 1 ((if recentLowFires ctx then 3 / 10 else 0) +
      riskRest ctx now) := by
  rw [analyze_hypoglycemia_risk] at h
  split at h
  · exact absurd h (by simp)
  · rw [Option.some_inj] at h
    rw [← h]
    refine ⟨?_, rfl⟩
    rw [← recentLowFires_iff]
    cases hlow : recentLowFires ctx with
    | false =>
        simp only [hlow, Bool.false_eq_true, if_false, List.nil_append]
        constructor
        · intro hmem
          simp [mem_if_singleton] at hmem
        · intro hmem
          exact absurd hmem (by simp)
    | true =>
        simp only [hlow, if_true]
        constructor
        · intro _
          trivial
        · intro _
          simp

/-- Witness for C7 on `ctxC7` at wall-clock minute 0: the factor is present
and one of the five most recent readings (75) is indeed below 80. -/
theorem C7_recent_low_rule_witness :
    ("Recent low glucose readings" ∈
        ({ risk_score := 3 / 10,
           contributing_factors := ["Recent low glucose readings"],
           last_meal_hours_ago := none, recent_activity := false,
           medication_timing_risk := false,
           glucose_trend := "stable" } : HypoglycemiaRiskFactors).contributing_factors ↔
      ∃ g ∈ ctxC7.recent_glucose_readings.take 5, g.reading < 80) ∧
    ({ risk_score := 3 / 10,
       contributing_factors := ["Recent low glucose readings"],
       last_meal_hours_ago := none, recent_activity := false,
       medication_timing_risk := false,
       glucose_trend := "stable" } : HypoglycemiaRiskFactors).risk_score =
      min2 1 ((if recentLowFires ctxC7 then 3 / 10 else 0) + riskRest ctxC7 0) :=
  C7_recent_low_rule ctxC7 0 _
    (by norm_num [analyze_hypoglycemia_risk, recentLowFires, trendCalc,
      mealCalc, activityCalc, insulinCalc, riskRest, min2, ctxC7, gr])

/-- Claim C10, confirmed: with at least 3 but fewer than 6 readings the
earlier-window mean is defined to equal the recent mean, so the trend label
is "stable", the decreasing-trend rule never fires, and its factor string
never appears. -/
theorem C10_short_history_stable_trend (ctx : EnhancedPatientContext)
    (now : Int) (r : HypoglycemiaRiskFactors)
    (h3 : 3 ≤ ctx.recent_glucose_readings.length)
    (h6 : ctx.recent_glucose_readings.length < 6)
    (h : analyze_hypoglycemia_risk ctx now = some r) :
    r.glucose_trend = "stable" ∧
    "Decreasing glucose trend" ∉ r.contributing_factors ∧
    (trendCalc ctx).1 = false := by
  have htr : trendCalc ctx = (false, "stable") := by
    have hlen : ¬ (6 ≤ ctx.recent_glucose_readings.length) := by omega
    simp only [trendCalc, if_pos h3, if_neg hlen]
    rw [if_neg (by intro hcon; linarith), if_neg (by intro hcon; linarith)]
  rw [analyze_hypoglycemia_risk] at h
  split at h
  · exact absurd h (by simp)
  · rw [Option.some_inj] at h
    rw [← h]
    refine ⟨by rw [htr], ?_, by rw [htr]⟩
    rw [htr]
    intro hmem
    simp [mem_if_singleton] at hmem

/-- Witness for C10 on three equal readings at wall-clock minute 0. -/
theorem C10_short_history_stable_trend_witness :
    ({ risk_score := 0, contributing_factors := [],
       last_meal_hours_ago := none, recent_activity := false,
       medication_timing_risk := false,
       glucose_trend := "stable" } : HypoglycemiaRiskFactors).glucose_trend
        = "stable" ∧
    "Decreasing glucose trend" ∉
      ({ risk_score := 0, contributing_factors := [],
         last_meal_hours_ago := none, recent_activity := false,
         medication_timing_risk := false,
         glucose_trend := "stable" } : HypoglycemiaRiskFactors).contributing_factors ∧
    (trendCalc ctxC10).1 = false :=
  C10_short_history_stable_trend ctxC10 0 _ (by decide) (by decide)
    (by norm_num [analyze_hypoglycemia_risk, recentLowFires, trendCalc,
      mealCalc, activityCalc, insulinCalc, riskRest, min2, ctxC10, gr])

/-- Claim C6, counterexample.  On `ctxC6` the code returns glucose_change
50 for "walk": it pools one picked reading per instance (the last-listed
before-reading 120, the first-listed after-readings 140 and 200 — the
second instance counts despite having no before-reading, and 140 sits
exactly at start+1h).  The claim formula (mean of ALL window readings,
spec window strictly beyond 1h, instances counted only when paired) gives
(150) - mean(100,120) = 40 instead. -/
theorem C6_counterexample :
    analyze_activity_glucose_correlations ctxC6 = [recC6] ∧
    recC6.glucose_change = 50 ∧
    specActivityChange (glucoseByTime ctxC6.recent_glucose_readings)
      ctxC6.recent_activity_logs = 40 ∧
    (50 : ℚ) ≠ 40 := by
  refine ⟨?_, rfl, ?_, by norm_num⟩
  · norm_num [analyze_activity_glucose_correlations, activityCorrelationFor,
      glucoseByTime, dictInsert, beforePairs, afterPairs, beforePicks,
      afterPicks, dedupF, meanQ, mostCommon1, mostCommonK, bump, sortLe,
      insertLe, hourOfMin, recC6, ctxC6, gr, al, List.filterMap_cons,
      List.filterMap_nil, List.isEmpty_cons, List.isEmpty_nil,
      List.cons_ne_nil, ne_eq, List.foldl_cons, List.foldl_nil,
      List.filter_cons, List.filter_nil, List.map_cons, List.map_nil]
  · norm_num [specActivityChange, specAfterPairs, beforePairs, glucoseByTime,
      dictInsert, meanQ, ctxC6, gr, al, List.filterMap_cons,
      List.filterMap_nil, List.isEmpty_cons, List.isEmpty_nil,
      List.cons_ne_nil, ne_eq, List.foldl_cons, List.foldl_nil,
      List.filter_cons, List.filter_nil, List.map_cons, List.map_nil]

/-- Claim C6, amended: every returned activity record has
`glucose_change = mean(after picks) - mean(before picks)`, where the picks
are one reading per activity instance — the last-listed reading within
`[start-1h, start)` and the first-listed reading within
`[start+1h, start+3h]` — and a record requires some instance with a
before-reading and some instance with an after-reading, not necessarily
the same instance. -/
theorem C6_activity_change_formula (ctx : EnhancedPatientContext)
    (rec : ActivityGlucoseCorrelation)
    (h : rec ∈ analyze_activity_glucose_correlations ctx) :
    beforePicks (glucoseByTime ctx.recent_glucose_readings)
      (ctx.recent_activity_logs.filter
        (fun a => a.activity_type == rec.activity_type)) ≠ [] ∧
    afterPicks (glucoseByTime ctx.recent_glucose_readings)
      (ctx.recent_activity_logs.filter
        (fun a => a.activity_type == rec.activity_type)) ≠ [] ∧
    rec.avg_glucose_before = some (meanQ (beforePicks
      (glucoseByTime ctx.recent_glucose_readings)
      (ctx.recent_activity_logs.filter
        (fun a => a.activity_type == rec.activity_type)))) ∧
    rec.avg_glucose_after = some (meanQ (afterPicks
      (glucoseByTime ctx.recent_glucose_readings)
      (ctx.recent_activity_logs.filter
        (fun a => a.activity_type == rec.activity_type)))) ∧
    rec.glucose_change =
      meanQ (afterPicks (glucoseByTime ctx.recent_glucose_readings)
        (ctx.recent_activity_logs.filter
          (fun a => a.activity_type == rec.activity_type))) -
      meanQ (beforePicks (glucoseByTime ctx.recent_glucose_readings)
        (ctx.recent_activity_logs.filter
          (fun a => a.activity_type == rec.activity_type))) := by
  rw [analyze_activity_glucose_correlations] at h
  split at h
  · exact absurd h (by simp)
  · obtain ⟨ty, hty, hf⟩ := List.mem_filterMap.mp h
    simp only [activityCorrelationFor] at hf
    split at hf
    · exact absurd hf (by simp)
    · rename_i hguard
      rw [Option.some_inj] at hf
      subst hf
      simp only [Bool.or_eq_true, not_or, Bool.not_eq_true] at hguard
      refine ⟨?_, ?_, rfl, rfl, rfl⟩
      · intro hnil
        rw [hnil] at hguard
        simp at hguard
      · intro hnil
        rw [hnil] at hguard
        simp at hguard

/-- Witness for C6 at `ctxC6` and its single returned record. -/
theorem C6_activity_change_formula_witness :
    beforePicks (glucoseByTime ctxC6.recent_glucose_readings)
      (ctxC6.recent_activity_logs.filter
        (fun a => a.activity_type == recC6.activity_type)) ≠ [] ∧
    afterPicks (glucoseByTime ctxC6.recent_glucose_readings)
      (ctxC6.recent_activity_logs.filter
        (fun a => a.activity_type == recC6.activity_type)) ≠ [] ∧
    recC6.avg_glucose_before = some (meanQ (beforePicks
      (glucoseByTime ctxC6.recent_glucose_readings)
      (ctxC6.recent_activity_logs.filter
        (fun a => a.activity_type == recC6.activity_type)))) ∧
    recC6.avg_glucose_after = some (meanQ (afterPicks
      (glucoseByTime ctxC6.recent_glucose_readings)
      (ctxC6.recent_activity_logs.filter
        (fun a => a.activity_type == recC6.activity_type)))) ∧
    recC6.glucose_change =
      meanQ (afterPicks (glucoseByTime ctxC6.recent_glucose_readings)
        (ctxC6.recent_activity_logs.filter
          (fun a => a.activity_type == recC6.activity_type))) -
      meanQ (beforePicks (glucoseByTime ctxC6.recent_glucose_readings)
        (ctxC6.recent_activity_logs.filter
          (fun a => a.activity_type == recC6.activity_type))) :=
  C6_activity_change_formula ctxC6 recC6 (by
    rw [show analyze_activity_glucose_correlations ctxC6 = [recC6] by
      norm_num [analyze_activity_glucose_correlations, activityCorrelationFor,
        glucoseByTime, dictInsert, beforePairs, afterPairs, beforePicks,
        afterPicks, dedupF, meanQ, mostCommon1, mostCommonK, bump, sortLe,
        insertLe, hourOfMin, recC6, ctxC6, gr, al, List.filterMap_cons,
        List.filterMap_nil, List.isEmpty_cons, List.isEmpty_nil,
        List.cons_ne_nil, ne_eq, List.foldl_cons, List.foldl_nil,
        List.filter_cons, List.filter_nil, List.map_cons, List.map_nil]]
    exact List.mem_singleton.mpr rfl)

/-- Claim C8, counterexample.  With exactly one non-empty hour bucket the
source returns the fixed default 0.5, but the claim formula
`max(0, 1 - stddev/50)` evaluates to 1 (the standard deviation of a
singleton is 0). -/
theorem C8_counterexample :
    (analyze_circadian_patterns ctxC8).map CircadianPattern.pattern_stability
      = some (1 / 2) ∧ ((1 : ℝ) / 2) ≠ 1 := by
  constructor
  · norm_num [analyze_circadian_patterns, hourlyGroup, bucketMeans, appendAt,
      hourOfMin, meanQ, ctxC8, gr, List.isEmpty_cons, List.isEmpty_nil,
      List.foldl_cons, List.foldl_nil, List.map_cons, List.map_nil]
  · norm_num

/-- Claim C8, amended: whenever at least TWO non-empty hour buckets exist,
`pattern_stability = max(0, 1 - stddev(bucket_means)/50)` with the
population standard deviation over the per-hour means; with exactly one
non-empty bucket the source returns the fixed default 0.5, not 1. -/
theorem C8_stability_formula (ctx : EnhancedPatientContext)
    (h2 : 2 ≤ (bucketMeans ctx.recent_glucose_readings).length) :
    (analyze_circadian_patterns ctx).map CircadianPattern.pattern_stability =
      some (max 0 (1 -
        Real.sqrt ((popVar (bucketMeans ctx.recent_glucose_readings) : ℚ) : ℝ)
          / 50)) := by
  have hrs : ctx.recent_glucose_readings.isEmpty = false := by
    cases hh : ctx.recent_glucose_readings.isEmpty
    · rfl
    · exfalso
      rw [List.isEmpty_iff] at hh
      rw [hh] at h2
      simp [bucketMeans, hourlyGroup] at h2
  have hhg : (hourlyGroup ctx.recent_glucose_readings).isEmpty = false := by
    cases hh : (hourlyGroup ctx.recent_glucose_readings).isEmpty
    · rfl
    · exfalso
      rw [List.isEmpty_iff] at hh
      rw [bucketMeans, hh] at h2
      simp at h2
  simp only [analyze_circadian_patterns, hrs, hhg, Bool.false_eq_true,
    if_false]
  rw [if_pos (by omega : 1 < (bucketMeans ctx.recent_glucose_readings).length)]
  simp

/-- Witness for C8 on readings in two distinct hour buckets. -/
theorem C8_stability_formula_witness :
    (analyze_circadian_patterns ctxC8w).map CircadianPattern.pattern_stability =
      some (max 0 (1 -
        Real.sqrt ((popVar (bucketMeans ctxC8w.recent_glucose_readings) : ℚ) : ℝ)
          / 50)) :=
  C8_stability_formula ctxC8w (by decide)

/-- Claim C9, confirmed: for a medication with at least one matching log
and a positive window, `adherence_rate = logged_count / days_of_history * 100`
and `effectiveness_score = min(1, adherence_rate / 100)`; on the Metformin
scenario (5 logs, 7 days) this yields 500/7 (about 71.4) and 5/7 (about
0.714). -/
theorem C9_adherence_formula (ctx : EnhancedPatientContext) (name : String)
    (e : MedicationTimingEffectiveness) (hd : 0 < ctx.days_of_history)
    (he : medicationEntryFor ctx name = some e) :
    e.adherence_rate =
      ((medLogsFor ctx name).length : ℚ) / (ctx.days_of_history : ℚ) * 100 ∧
    e.effectiveness_score = min2 1 (e.adherence_rate / 100) ∧
    analyze_medication_timing ctxC9 = [entryC9] := by
  simp only [medicationEntryFor] at he
  split at he
  · exact absurd he (by simp)
  · rw [Option.some_inj] at he
    subst he
    refine ⟨?_, rfl, ?_⟩
    · simp only [if_pos hd]
    · norm_num [analyze_medication_timing, medicationEntryFor, medLogsFor,
        mostCommon1, mostCommonK, bump, sortLe, insertLe, hourOfMin, min2,
        entryC9, ctxC9, mdl, List.filterMap_cons, List.filterMap_nil,
        List.isEmpty_cons, List.isEmpty_nil, List.cons_ne_nil, ne_eq,
        List.foldl_cons, List.foldl_nil, List.filter_cons, List.filter_nil,
        List.map_cons, List.map_nil]

/-- Witness for C9 at the Metformin scenario itself. -/
theorem C9_adherence_formula_witness :
    entryC9.adherence_rate =
      ((medLogsFor ctxC9 "Metformin").length : ℚ) /
        (ctxC9.days_of_history : ℚ) * 100 ∧
    entryC9.effectiveness_score = min2 1 (entryC9.adherence_rate / 100) ∧
    analyze_medication_timing ctxC9 = [entryC9] :=
  C9_adherence_formula ctxC9 "Metformin" entryC9 (by decide)
    (by norm_num [medicationEntryFor, medLogsFor, mostCommon1, mostCommonK,
      bump, sortLe, insertLe, hourOfMin, min2, entryC9, ctxC9, mdl,
      List.filterMap_cons, List.filterMap_nil, List.isEmpty_cons,
      List.isEmpty_nil, List.cons_ne_nil, ne_eq, List.foldl_cons,
      List.foldl_nil, List.filter_cons, List.filter_nil, List.map_cons,
      List.map_nil])

end GlucoGenie
